import Mathlib

/-
Verification of the Great Fit backend job pipeline (src/main.py, src/logic.py,
src/crud.py, src/models.py) against its specification.

The embedding models the state touched by one background pipeline run: the
user table (credits per user id, src/models.py User.credits), the jobs table
(src/models.py Job), the sequence of SQLAlchemy commits issued by
process_job_in_background (src/main.py lines 393-615), and the sequence of
SSE notifications handed to the ConnectionManager via send_personal_message.

External LLM calls are black boxes (per the spec they are opaque
collaborators): each call site is parameterized by its outcome.  The two
helpers called from main.py that are absent from the source tree
(clean_job_description, generate_tailoring_suggestions) have their outcome
types modelled from the spec; every branch taken on those outcomes is the
branching of src/main.py itself.
-/

namespace GreatFit

/-- A row of the jobs table, src/models.py class Job: id, title, company,
description, ranking_score (nullable float), ranking_explanation (nullable
text), tailoring_suggestions (nullable JSON list), owner_id. Scores are
modelled as rationals. -/
structure JobRec where
  id : Nat
  title : String
  company : String
  description : String
  rankingScore : Option ℚ
  rankingExplanation : Option String
  tailoringSuggestions : Option (List String)
  ownerId : Nat
  deriving Repr, DecidableEq

/-- The committed database state: the users table (user id paired with the
credits column of src/models.py class User), the jobs table, and the next
autoincrement id SQLite will assign to an inserted job. -/
structure DB where
  users : List (Nat × Int)
  jobs : List JobRec
  nextJobId : Nat
  deriving Repr, DecidableEq

/-- crud.get_user_by_id (src/crud.py lines 9-11), projected to the credits
column, the only user field the pipeline reads or writes. -/
def getCredits (db : DB) (uid : Nat) : Option Int :=
  (db.users.find? (fun p => p.fst == uid)).map Prod.snd

/-- crud.get_job (src/crud.py lines 79-84): first job matching both the job
id and the owner id. -/
def getJob (db : DB) (jid uid : Nat) : Option JobRec :=
  db.jobs.find? (fun j => j.id == jid && j.ownerId == uid)

/-- One pending row change inside an open SQLAlchemy session. A transaction
is a list of these, applied atomically by db_session.commit(). -/
inductive Write
  | insertJob (j : JobRec)
  | setRanking (jid : Nat) (score : ℚ) (expl : String)
  | setSuggestions (jid : Nat) (s : List String)
  | addCredits (uid : Nat) (delta : Int)
  deriving Repr, DecidableEq

/-- Effect of one pending change on the committed state. insertJob models
SQLite assigning the autoincrement id; the update writes touch every row
matching the id, mirroring an UPDATE by primary key. -/
def applyWrite (db : DB) : Write → DB
  | .insertJob j => { db with jobs := db.jobs ++ [j], nextJobId := db.nextJobId + 1 }
  | .setRanking jid sc ex =>
      { db with jobs := db.jobs.map (fun j =>
          if j.id = jid then { j with rankingScore := some sc, rankingExplanation := some ex } else j) }
  | .setSuggestions jid s =>
      { db with jobs := db.jobs.map (fun j =>
          if j.id = jid then { j with tailoringSuggestions := some s } else j) }
  | .addCredits uid d =>
      { db with users := db.users.map (fun p =>
          if p.fst = uid then (p.fst, p.snd + d) else p) }

/-- db_session.commit(): apply the writes of a transaction in order. -/
def applyTx (db : DB) (ws : List Write) : DB :=
  ws.foldl applyWrite db

/-- Reason field of a job_error SSE payload. The first four constructors are
the four fixed payloads built in src/main.py (the strings
"Insufficient Credits", "ranking_failed", "tailoring_failed",
"Content filter triggered"); exceptionType carries type(e).__name__ from the
generic exception handler (src/main.py line 572). -/
inductive ErrReason
  | insufficientCredits
  | rankingFailed
  | tailoringFailed
  | contentFiltered
  | exceptionType (name : String)
  deriving Repr, DecidableEq

/-- One SSE notification handed to ConnectionManager.send_personal_message,
with the payload fields the pipeline fills in (src/main.py lines 459-545). -/
inductive SSE
  | jobCreated (id : Nat) (title company description : String) (userId : Nat)
  | jobRanked (jobId : Nat) (score : ℚ) (explanation : String)
  | jobTailored (jobId : Nat) (suggestions : List String)
  | jobError (jobId : Option Nat) (reason : ErrReason)
  deriving Repr, DecidableEq

/-- One observable action of the request handler or the pipeline, in program
order: a committed transaction, an SSE send, acquiring or releasing the
db_write_semaphore declared at src/main.py line 63, the processing-count
calls, and the HTTP response of the endpoint. -/
inductive Action
  | commitTx (ws : List Write)
  | send (e : SSE)
  | acquireWritePermit
  | releaseWritePermit
  | incrementProcessing
  | decrementProcessing
  | respond (status : Nat)
  deriving Repr, DecidableEq

/-- schemas.CleanedJobDescription (src/schemas.py lines 96-114), the fields
the pipeline consumes. -/
structure CleanedJobDescription where
  title : String
  company : String
  location : String
  cleanedMarkdown : String
  deriving Repr, DecidableEq

/-- The structured result of call_llm_for_job_ranking
(src/llm_interaction.py): a score and an explanation. -/
structure JobRanking where
  score : ℚ
  explanation : String
  deriving Repr, DecidableEq

/-- Modelled from the spec: clean_job_description is called at src/main.py
line 436 but is absent from the source tree. Per the spec the cleaning call
returns typed cleaned fields or fails, and the content-filter refusal is a
distinct failure kind from a generic error; failures surface as raised
exceptions handled by the except clauses of the caller. -/
inductive CleanOutcome
  | ok (c : CleanedJobDescription)
  | contentFilterError
  | genericError (ty : String)
  deriving Repr, DecidableEq

/-- Outcome of the call_llm_for_job_ranking_cached call inside
rank_job_with_llm (src/logic.py line 130): a structured result or a raised
exception (the content-filter kind or any other). -/
inductive RankLLM
  | ok (r : JobRanking)
  | contentFilterError
  | genericError
  deriving Repr, DecidableEq

/-- Modelled from the spec: generate_tailoring_suggestions is called at
src/main.py line 501 but is absent from the source tree. Per the spec the
tailoring call returns a list of suggestions or fails in-band (the caller
branches on truthiness, so None and the empty list are both failures), and
may also raise the distinguishable content-filter error or a generic one. -/
inductive TailorOutcome
  | returns (v : Option (List String))
  | contentFilterError
  | genericError (ty : String)
  deriving Repr, DecidableEq

/-- Score clamping in rank_job_with_llm, src/logic.py line 139:
score = max(1.0, min(10.0, score)). -/
def clampScore (s : ℚ) : ℚ :=
  max 1 (min 10 s)

/-- rank_job_with_llm, src/logic.py lines 97-154, as the value of its
returned (score, explanation) pair: None if the job is not found for that
user; on an LLM result, the clamped score; every exception from the LLM call
(including the content-filter kind) is caught and turned into (None, None).
The profile lookup only shapes the prompt text, never the control flow, so
it does not appear. The session write done via crud.update_job_ranking is
re-done by the caller before its commit, so the commit of the caller carries it. -/
def rank_job_with_llm (db : DB) (jid uid : Nat) (llm : RankLLM) : Option (ℚ × String) :=
  match getJob db jid uid with
  | none => none
  | some _ =>
      match llm with
      | .ok r => some (clampScore r.score, r.explanation)
      | .contentFilterError => none
      | .genericError => none

/-- Result of one run: the ordered action trace, the committed database
state afterwards, and whether an exception escaped the function (raised). -/
structure RunResult where
  trace : List Action
  db : DB
  raised : Bool
  deriving Repr, DecidableEq

/-- Steps 5-6 of process_job_in_background, src/main.py lines 499-553, plus
the enclosing except clauses as they apply to this region. On a truthy
suggestions value: set suggestions, re-fetch the user, deduct one credit,
commit everything in one transaction, then send job_tailored (lines
504-533). On a falsy value: send job_error tailoring_failed first, then
re-fetch, deduct, commit (lines 534-553). If the user row has vanished the
raise at line 515 or 549 reaches the generic handler which sends a job_error
and rolls back the open transaction. A content-filter error raised by the
tailoring call reaches the handler at line 555, whose logging line reads the
unbound local e and raises before any send, so nothing is emitted and the
new exception escapes. A generic error reaches the handler at line 570:
job_error sent, rollback, nothing committed here. -/
def tailorStep (db : DB) (uid jid : Nat) : TailorOutcome → RunResult
  | .returns (some (s :: rest)) =>
      match getCredits db uid with
      | some _ =>
          ⟨[.commitTx [.setSuggestions jid (s :: rest), .addCredits uid (-1)],
            .send (.jobTailored jid (s :: rest))],
           applyTx db [.setSuggestions jid (s :: rest), .addCredits uid (-1)], false⟩
      | none => ⟨[.send (.jobError (some jid) (.exceptionType "Exception"))], db, false⟩
  | .returns _ =>
      match getCredits db uid with
      | some _ =>
          ⟨[.send (.jobError (some jid) .tailoringFailed), .commitTx [.addCredits uid (-1)]],
           applyTx db [.addCredits uid (-1)], false⟩
      | none =>
          ⟨[.send (.jobError (some jid) .tailoringFailed),
            .send (.jobError (some jid) (.exceptionType "Exception"))], db, false⟩
  | .contentFilterError => ⟨[], db, true⟩
  | .genericError ty => ⟨[.send (.jobError (some jid) (.exceptionType ty))], db, false⟩

/-- Step 3 onwards once the job row exists, src/main.py lines 469-553: rank
the job; on a score, write score and explanation, commit, send job_ranked;
on failure send job_error ranking_failed and continue; then the tailoring
phase. -/
def afterCreate (db1 : DB) (uid jid : Nat) (rankLLM : RankLLM) (tailor : TailorOutcome) : RunResult :=
  match rank_job_with_llm db1 jid uid rankLLM with
  | some (sc, ex) =>
      let t := tailorStep (applyTx db1 [.setRanking jid sc ex]) uid jid tailor
      ⟨[.commitTx [.setRanking jid sc ex], .send (.jobRanked jid sc ex)] ++ t.trace, t.db, t.raised⟩
  | none =>
      let t := tailorStep db1 uid jid tailor
      ⟨[.send (.jobError (some jid) .rankingFailed)] ++ t.trace, t.db, t.raised⟩

/-- process_job_in_background, src/main.py lines 393-615. billing is
settings.auth_billing_enabled. The raw markdown content only feeds the
cleaning call, which is represented by its outcome. In order: fetch the
user (a missing user raises, handled by the generic handler with no job id);
the credit precheck (lines 424-432) returns early with a single job_error;
clean (a content-filter error reaches the handler at line 555 whose logging
line raises on the unbound local e before sending anything, so the run emits
nothing and the exception escapes; a generic error is sent as a job_error
with no job id); create and commit the job row, send job_created; then
afterCreate. The finally block always runs decrement_processing_count. -/
def process_job_in_background (billing : Bool) (db0 : DB) (uid : Nat)
    (clean : CleanOutcome) (rankLLM : RankLLM) (tailor : TailorOutcome) : RunResult :=
  let core : RunResult :=
    match getCredits db0 uid with
    | none => ⟨[.send (.jobError none (.exceptionType "Exception"))], db0, false⟩
    | some credits =>
        if billing = true ∧ credits ≤ 0 then
          ⟨[.send (.jobError none .insufficientCredits)], db0, false⟩
        else
          match clean with
          | .contentFilterError => ⟨[], db0, true⟩
          | .genericError ty => ⟨[.send (.jobError none (.exceptionType ty))], db0, false⟩
          | .ok c =>
              let j : JobRec :=
                ⟨db0.nextJobId, c.title, c.company, c.cleanedMarkdown, none, none, none, uid⟩
              let r := afterCreate (applyWrite db0 (.insertJob j)) uid db0.nextJobId rankLLM tailor
              ⟨[.commitTx [.insertJob j],
                .send (.jobCreated db0.nextJobId c.title c.company c.cleanedMarkdown uid)] ++ r.trace,
               r.db, r.raised⟩
  ⟨core.trace ++ [.decrementProcessing], core.db, core.raised⟩

/-- Python str.strip() as used at src/main.py line 627: remove leading and
trailing whitespace characters. -/
def pyStrip (s : String) : String :=
  ⟨((s.data.dropWhile Char.isWhitespace).reverse.dropWhile Char.isWhitespace).reverse⟩

/-- create_job_from_markdown, src/main.py lines 617-639: reject blank input
with a 422 before any work; otherwise increment the processing count and
then await process_job_in_background to completion before answering 202
with {"status": "accepted"} (no job id in the response). If the awaited
call raises, the exception propagates and the handler itself sends no
response. -/
def create_job_from_markdown (billing : Bool) (db0 : DB) (uid : Nat) (markdown : String)
    (clean : CleanOutcome) (rankLLM : RankLLM) (tailor : TailorOutcome) : RunResult :=
  if pyStrip markdown = "" then ⟨[.respond 422], db0, false⟩
  else
    let r := process_job_in_background billing db0 uid clean rankLLM tailor
    if r.raised then ⟨.incrementProcessing :: r.trace, r.db, true⟩
    else ⟨.incrementProcessing :: (r.trace ++ [.respond 202]), r.db, false⟩

/- ----- trace observations ----- -/

/-- The SSE notifications of a trace, in order. -/
def sends (tr : List Action) : List SSE :=
  tr.filterMap (fun a => match a with | .send e => some e | _ => none)

/-- The committed transactions of a trace, in order. -/
def commitsOf (tr : List Action) : List (List Write) :=
  tr.filterMap (fun a => match a with | .commitTx ws => some ws | _ => none)

/-- Whether a pending change touches a credits balance. -/
def isCreditWrite : Write → Bool
  | .addCredits _ _ => true
  | _ => false

/-- Whether a transaction touches any credits balance. -/
def touchesCredits (ws : List Write) : Bool :=
  ws.any isCreditWrite

/-- The last element of a list, if any. -/
def lastOf {α : Type} : List α → Option α
  | [] => none
  | [a] => some a
  | _ :: b :: t => lastOf (b :: t)

/-- The last committed transaction of a trace contains a one-credit
deduction for this user. -/
def finalCommitHasDeduction (uid : Nat) (tr : List Action) : Bool :=
  match lastOf (commitsOf tr) with
  | some ws => ws.any (fun w => w == Write.addCredits uid (-1))
  | none => false

/-- When the tailoring call returned a truthy suggestions list, the last
committed transaction also persists those suggestions (the deduction rides
the same transaction as the final persistence step); trivially true for
falsy outcomes, where nothing is left to persist. -/
def suggClauseOK (jid : Nat) (v : Option (List String)) (tr : List Action) : Bool :=
  match v with
  | some (s :: rest) => match lastOf (commitsOf tr) with
      | some ws => ws.any (fun w => w == Write.setSuggestions jid (s :: rest))
      | none => false
  | _ => true

/-- Pipeline progress stage of a notification: job_created is 0, job_ranked
and job_error ranking_failed are 1, job_tailored and job_error
tailoring_failed are 2; other notifications carry no stage. -/
def progressStage : SSE → Option Nat
  | .jobCreated _ _ _ _ _ => some 0
  | .jobRanked _ _ _ => some 1
  | .jobError _ .rankingFailed => some 1
  | .jobTailored _ _ => some 2
  | .jobError _ .tailoringFailed => some 2
  | .jobError _ _ => none

/-- A list of stages is strictly increasing. -/
def strictlyInc : List Nat → Bool
  | [] => true
  | [_] => true
  | a :: b :: r => decide (a < b) && strictlyInc (b :: r)

/-- If any staged progress notification occurs, the first one is
job_created. -/
def headIsCreated : List SSE → Bool
  | [] => true
  | .jobCreated _ _ _ _ _ :: _ => true
  | _ => false

/-- The per-run ordering guarantee of the spec: staged progress
notifications occur in strictly increasing stage order (so each stage at
most once, never a later stage before an earlier one) and start with
job_created when any occur. -/
def orderedTrace (tr : List Action) : Bool :=
  strictlyInc ((sends tr).filterMap progressStage) &&
  headIsCreated ((sends tr).filter (fun e => (progressStage e).isSome))

/-- Actions a pipeline run may perform by itself: commits, SSE sends and the
final processing-count decrement; never an HTTP response, never the
processing-count increment of the endpoint and, notably, never an
acquisition of the db_write_semaphore. -/
def isPipelineAction : Action → Bool
  | .commitTx _ => true
  | .send _ => true
  | .decrementProcessing => true
  | _ => false

/-- The action is the 202 acknowledgment of the endpoint. -/
def isAck : Action → Bool
  | .respond s => s == 202
  | _ => false

/-- The action acquires the db_write_semaphore permit. -/
def isAcquire : Action → Bool
  | .acquireWritePermit => true
  | _ => false

/-- The balance of the owner, if present, is non-negative. -/
def nonnegCredits (db : DB) (uid : Nat) : Prop :=
  match getCredits db uid with
  | some c => 0 ≤ c
  | none => True

/- ----- LLM response cache, src/logic.py lines 22-53 ----- -/

/-- The serialization the decorator hashes, src/logic.py lines 32-35:
function name joined with the str() of each positional argument and each
sorted "k=v" keyword rendering, all delimited by the bar character. argsStr
is that list of rendered argument strings. The md5 digest is a fixed
function of this string, so two calls share a cache slot exactly when their
serializations collide (the embedding treats the digest as collision-free). -/
def cacheKey (fname : String) (argsStr : List String) : String :=
  fname ++ "|" ++ String.intercalate "|" argsStr

/-- Outcome of one invocation of the wrapped LLM function: a value, a None
return, or a raised exception. -/
inductive CallOut (α : Type)
  | ok (a : α)
  | returnsNone
  | raisesError
  deriving Repr, DecidableEq

/-- Result of one pass through the wrapper: the cache afterwards, whether
the underlying function was invoked, the value returned (none both for a
None return and for a raise), and whether the call raised. -/
structure CacheCall (α : Type) where
  cache : List (String × α)
  invoked : Bool
  value : Option α
  raised : Bool
  deriving Repr, DecidableEq

/-- cache_llm_response, src/logic.py lines 25-53, as one call step: on a
cache hit return the stored value without invoking; on a miss invoke, store
the result only when it is not None (line 48), and let an exception
propagate before any store. -/
def cache_llm_response {α : Type} (cache : List (String × α)) (fname : String)
    (argsStr : List String) (call : CallOut α) : CacheCall α :=
  match cache.find? (fun p => p.fst == cacheKey fname argsStr) with
  | some p => ⟨cache, false, some p.snd, false⟩
  | none =>
      match call with
      | .ok a => ⟨(cacheKey fname argsStr, a) :: cache, true, some a, false⟩
      | .returnsNone => ⟨cache, true, none, false⟩
      | .raisesError => ⟨cache, true, none, true⟩

/- ----- concrete fixtures ----- -/

/-- A database with one user, id 1 with 5 credits, and no jobs. -/
def userDb : DB := ⟨[(1, 5)], [], 1⟩

/-- A database with one user, id 1 with 0 credits, and no jobs. -/
def dbZero : DB := ⟨[(1, 0)], [], 1⟩

/-- Concrete cleaned posting. -/
def cleanedA : CleanedJobDescription := ⟨"Engineer", "Acme", "Remote", "desc"⟩

/-- Concrete ranking result. -/
def rankA : JobRanking := ⟨7, "good fit"⟩

/-- A database where user 1 already owns job 1. -/
def jobDb : DB := ⟨[(1, 5)], [⟨1, "Engineer", "Acme", "desc", none, none, none, 1⟩], 2⟩

/- ----- helper lemmas ----- -/

theorem getCredits_insertJob (db : DB) (j : JobRec) (uid : Nat) :
    getCredits (applyWrite db (.insertJob j)) uid = getCredits db uid := rfl

theorem getCredits_setRanking (db : DB) (jid : Nat) (sc : ℚ) (ex : String) (uid : Nat) :
    getCredits (applyWrite db (.setRanking jid sc ex)) uid = getCredits db uid := rfl

theorem getCredits_setSuggestions (db : DB) (jid : Nat) (s : List String) (uid : Nat) :
    getCredits (applyWrite db (.setSuggestions jid s)) uid = getCredits db uid := rfl

theorem jobs_addCredits (db : DB) (uid : Nat) (d : Int) :
    (applyWrite db (.addCredits uid d)).jobs = db.jobs := rfl

theorem find?_map_addCredits (l : List (Nat × Int)) (uid : Nat) (d : Int) :
    (l.map (fun p => if p.fst = uid then (p.fst, p.snd + d) else p)).find?
        (fun p => p.fst == uid)
      = (l.find? (fun p => p.fst == uid)).map (fun p => (p.fst, p.snd + d)) := by
  induction l with
  | nil => rfl
  | cons a t ih =>
      by_cases ha : a.fst = uid
      · simp [List.find?_cons, ha]
      · simp [List.find?_cons, ha, ih]

theorem getCredits_addCredits (db : DB) (uid : Nat) (d : Int) :
    getCredits (applyWrite db (.addCredits uid d)) uid
      = (getCredits db uid).map (fun c => c + d) := by
  unfold getCredits applyWrite
  rw [find?_map_addCredits]
  cases db.users.find? (fun p => p.fst == uid) <;> rfl

theorem find?_append_exists {α : Type} (p : α → Bool) (l : List α) (x : α)
    (hx : p x = true) : ∃ y, (l ++ [x]).find? p = some y := by
  induction l with
  | nil => exact ⟨x, by simp [List.find?, hx]⟩
  | cons a t ih =>
      cases ha : p a
      · obtain ⟨y, hy⟩ := ih
        exact ⟨y, by simp [List.find?_cons, ha, hy]⟩
      · exact ⟨a, by simp [List.find?_cons, ha]⟩

theorem rank_insert_reduce (db : DB) (t co de : String) (uid : Nat) (llm : RankLLM) :
    rank_job_with_llm
        (applyWrite db (.insertJob ⟨db.nextJobId, t, co, de, none, none, none, uid⟩))
        db.nextJobId uid llm
      = (match llm with
         | .ok r => some (clampScore r.score, r.explanation)
         | .contentFilterError => none
         | .genericError => none) := by
  obtain ⟨j0, hj⟩ := find?_append_exists
      (fun j => j.id == db.nextJobId && j.ownerId == uid) db.jobs
      ⟨db.nextJobId, t, co, de, none, none, none, uid⟩ (by simp)
  unfold rank_job_with_llm getJob
  simp only [applyWrite]
  rw [hj]

theorem map_setSuggestions_fresh (l : List JobRec) (jid : Nat) (s : List String)
    (h : ∀ j ∈ l, j.id ≠ jid) :
    l.map (fun j => if j.id = jid then { j with tailoringSuggestions := some s } else j) = l := by
  induction l with
  | nil => rfl
  | cons a t ih =>
      simp only [List.map_cons, if_neg (h a (List.mem_cons_self a t)),
        ih (fun j hj => h j (List.mem_cons_of_mem a hj))]

/-- Exhaustive enumeration of the possible pipeline traces, yielding the
three facts shared by several theorems below: a run performs only pipeline
actions (in particular it never acquires the write permit and never
responds), its notifications respect the per-run stage order, and no commit
before the last one touches a credits balance. -/
theorem run_facts (billing : Bool) (db : DB) (uid : Nat)
    (clean : CleanOutcome) (rankLLM : RankLLM) (tailor : TailorOutcome) :
    (process_job_in_background billing db uid clean rankLLM tailor).trace.all
        isPipelineAction = true
    ∧ orderedTrace (process_job_in_background billing db uid clean rankLLM tailor).trace
        = true
    ∧ (commitsOf
          (process_job_in_background billing db uid clean rankLLM tailor).trace).dropLast.countP
        touchesCredits = 0 := by
  rcases hget : getCredits db uid with _ | c
  · simp [process_job_in_background, hget, isPipelineAction, orderedTrace, sends,
      progressStage, strictlyInc, headIsCreated, commitsOf, touchesCredits]
  · by_cases hb : billing = true ∧ c ≤ 0
    · simp [process_job_in_background, hget, hb, isPipelineAction, orderedTrace, sends,
        progressStage, strictlyInc, headIsCreated, commitsOf, touchesCredits]
    · rcases clean with cj | _ | ty
      · rcases rankLLM with rr | _ | _ <;>
          rcases tailor with (_ | (_ | ⟨s, rest⟩)) | _ | ty2 <;>
          simp [process_job_in_background, afterCreate, tailorStep, rank_insert_reduce,
            applyTx, hget, hb, getCredits_insertJob, getCredits_setRanking,
            getCredits_setSuggestions, isPipelineAction, orderedTrace, sends,
            progressStage, strictlyInc, headIsCreated, commitsOf, touchesCredits,
            isCreditWrite]
      · simp [process_job_in_background, hget, hb, isPipelineAction, orderedTrace, sends,
          progressStage, strictlyInc, headIsCreated, commitsOf, touchesCredits]
      · simp [process_job_in_background, hget, hb, isPipelineAction, orderedTrace, sends,
          progressStage, strictlyInc, headIsCreated, commitsOf, touchesCredits]

/-- C10: whenever the ranking call returns successfully, the score that
rank_job_with_llm hands back for persistence equals max(1.0, min(10.0, raw
score)), hence always lies in the closed interval from 1 to 10, even when
the external service returns a value outside that range
(src/logic.py line 139). -/
theorem ranking_score_clamped (db : DB) (jid uid : Nat) (rr : JobRanking) (p : ℚ × String)
    (h : rank_job_with_llm db jid uid (.ok rr) = some p) :
    p.fst = max 1 (min 10 rr.score) ∧ 1 ≤ p.fst ∧ p.fst ≤ 10 := by
  unfold rank_job_with_llm at h
  rcases hj : getJob db jid uid with _ | j
  · rw [hj] at h
    cases h
  · rw [hj] at h
    simp only [Option.some.injEq] at h
    subst h
    refine ⟨rfl, le_max_left 1 _, ?_⟩
    exact max_le (by norm_num) (min_le_left _ _)

/-- Witness for C10 at a concrete out-of-range raw score of 12, which is
stored as 10. -/
theorem ranking_score_clamped_witness :
    (((10 : ℚ), "why").fst = max 1 (min 10 (12 : ℚ)))
    ∧ 1 ≤ (((10 : ℚ), "why")).fst ∧ (((10 : ℚ), "why")).fst ≤ 10 :=
  ranking_score_clamped jobDb 1 1 ⟨12, "why"⟩ ((10 : ℚ), "why") (by decide)

/-- C2: with credit enforcement enabled and a zero balance, a run leaves the
database untouched (no job row, credits unchanged), hands exactly one
notification to the hub, a job_error whose reason is the insufficient
credits payload, and finishes normally (src/main.py lines 424-432). -/
theorem insufficient_credits_gate (db : DB) (uid : Nat)
    (clean : CleanOutcome) (rankLLM : RankLLM) (tailor : TailorOutcome)
    (hget : getCredits db uid = some 0) :
    (process_job_in_background true db uid clean rankLLM tailor).db = db
    ∧ sends (process_job_in_background true db uid clean rankLLM tailor).trace
        = [.jobError none .insufficientCredits]
    ∧ (process_job_in_background true db uid clean rankLLM tailor).raised = false := by
  simp [process_job_in_background, hget, sends]

/-- Witness for C2 on the one-user zero-credit database. -/
theorem insufficient_credits_gate_witness :
    (process_job_in_background true dbZero 1 (.ok cleanedA) (.ok rankA)
        (.returns (some ["sug"]))).db = dbZero
    ∧ sends (process_job_in_background true dbZero 1 (.ok cleanedA) (.ok rankA)
        (.returns (some ["sug"]))).trace = [.jobError none .insufficientCredits]
    ∧ (process_job_in_background true dbZero 1 (.ok cleanedA) (.ok rankA)
        (.returns (some ["sug"]))).raised = false :=
  insufficient_credits_gate dbZero 1 (.ok cleanedA) (.ok rankA) (.returns (some ["sug"])) rfl

/-- C9: when the generation service raises its content-filter error, the
except handler at src/main.py line 555 evaluates the unbound local e on its
logging line before reaching send_personal_message, so the run emits no
notification at all, the new exception escapes the function, and nothing
further is persisted. The claimed distinguishable job_error with a
content-filter reason is never delivered. -/
theorem content_filter_event_lost (db : DB) (uid : Nat) (c0 : Int)
    (rankLLM : RankLLM) (tailor : TailorOutcome) (billing : Bool)
    (hget : getCredits db uid = some c0)
    (hpre : ¬(billing = true ∧ c0 ≤ 0)) :
    (process_job_in_background billing db uid .contentFilterError rankLLM tailor).raised = true
    ∧ sends (process_job_in_background billing db uid .contentFilterError rankLLM tailor).trace
        = []
    ∧ (process_job_in_background billing db uid .contentFilterError rankLLM tailor).db = db := by
  simp [process_job_in_background, hget, hpre, sends]

/-- Witness for C9: a funded user whose cleaning call is content-filtered. -/
theorem content_filter_event_lost_witness :
    (process_job_in_background true userDb 1 .contentFilterError .genericError
        (.returns none)).raised = true
    ∧ sends (process_job_in_background true userDb 1 .contentFilterError .genericError
        (.returns none)).trace = []
    ∧ (process_job_in_background true userDb 1 .contentFilterError .genericError
        (.returns none)).db = userDb :=
  content_filter_event_lost userDb 1 5 .genericError (.returns none) true rfl (by decide)

/-- C6: no execution of the pipeline ever acquires the db_write_semaphore
permit declared at src/main.py line 63 - the semaphore is defined but no
code path acquires it - while a happy-path run still performs three
store-writing commits. So writes and commits run without ever holding the
single write permit, and nothing excludes two concurrent runs from writing
simultaneously. -/
theorem writes_without_permit :
    (∀ (billing : Bool) (db : DB) (uid : Nat) (clean : CleanOutcome)
        (rankLLM : RankLLM) (tailor : TailorOutcome),
      (process_job_in_background billing db uid clean rankLLM tailor).trace.countP
          isAcquire = 0)
    ∧ (commitsOf (process_job_in_background true userDb 1 (.ok cleanedA) (.ok rankA)
        (.returns (some ["sug"]))).trace).length = 3 := by
  constructor
  · intro billing db uid clean rankLLM tailor
    rw [List.countP_eq_zero]
    intro a ha
    have hp := List.all_eq_true.mp (run_facts billing db uid clean rankLLM tailor).1 a ha
    cases a <;> simp_all [isPipelineAction, isAcquire]
  · decide

/-- C4: notifications of a single run are handed to the hub in stage order:
any staged progress notification sequence starts with job_created and is
strictly increasing in stage (job_created, then job_ranked or job_error
ranking_failed, then job_tailored or job_error tailoring_failed, each at
most once, never a later stage first); and in the happy path the hub
receives exactly job_created, job_ranked, job_tailored with no reordering
and no duplicates (src/main.py lines 458-545). -/
theorem notification_ordering :
    (∀ (billing : Bool) (db : DB) (uid : Nat) (clean : CleanOutcome)
        (rankLLM : RankLLM) (tailor : TailorOutcome),
      orderedTrace (process_job_in_background billing db uid clean rankLLM tailor).trace
        = true)
    ∧ (∀ (billing : Bool) (db : DB) (uid : Nat) (c0 : Int) (cj : CleanedJobDescription)
        (rr : JobRanking) (s : String) (rest : List String),
      getCredits db uid = some c0 → ¬(billing = true ∧ c0 ≤ 0) →
      sends (process_job_in_background billing db uid (.ok cj) (.ok rr)
          (.returns (some (s :: rest)))).trace
        = [.jobCreated db.nextJobId cj.title cj.company cj.cleanedMarkdown uid,
           .jobRanked db.nextJobId (clampScore rr.score) rr.explanation,
           .jobTailored db.nextJobId (s :: rest)]) := by
  constructor
  · intro billing db uid clean rankLLM tailor
    exact (run_facts billing db uid clean rankLLM tailor).2.1
  · intro billing db uid c0 cj rr s rest hget hpre
    simp [process_job_in_background, afterCreate, tailorStep, rank_insert_reduce,
      applyTx, hget, hpre, getCredits_insertJob, getCredits_setRanking, sends]

/-- Witness for C4: ordering on an aborted run and the exact happy-path
sequence on the funded one-user database. -/
theorem notification_ordering_witness :
    orderedTrace (process_job_in_background true userDb 1 .contentFilterError .genericError
        (.returns none)).trace = true
    ∧ sends (process_job_in_background true userDb 1 (.ok cleanedA) (.ok rankA)
        (.returns (some ["sug"]))).trace
      = [.jobCreated userDb.nextJobId cleanedA.title cleanedA.company cleanedA.cleanedMarkdown 1,
         .jobRanked userDb.nextJobId (clampScore rankA.score) rankA.explanation,
         .jobTailored userDb.nextJobId ["sug"]] :=
  ⟨notification_ordering.1 true userDb 1 .contentFilterError .genericError (.returns none),
   notification_ordering.2 true userDb 1 5 cleanedA rankA "sug" [] rfl (by decide)⟩

/-- C1 counterexample: with credit enforcement disabled (a supported
operating mode) the deduction at src/main.py line 517 still runs, so a
completed run drives a zero balance to -1: the balance does go negative. -/
theorem credits_go_negative_without_enforcement :
    getCredits (process_job_in_background false dbZero 1 (.ok cleanedA) (.ok rankA)
        (.returns (some ["sug"]))).db 1 = some (-1)
    ∧ ((-1 : Int) < 0) := by
  constructor
  · decide
  · decide

/-- C1 (amended): with credit enforcement enabled, a failed precheck leaves
the whole database record untouched, the balance of the owner never becomes
negative after a run completes, and no commit before the final one of a run
touches any credits balance. -/
theorem credits_nonneg_with_enforcement (db : DB) (uid : Nat) (c0 : Int)
    (clean : CleanOutcome) (rankLLM : RankLLM) (tailor : TailorOutcome)
    (hget : getCredits db uid = some c0) (h0 : 0 ≤ c0) :
    (c0 ≤ 0 → (process_job_in_background true db uid clean rankLLM tailor).db = db)
    ∧ nonnegCredits (process_job_in_background true db uid clean rankLLM tailor).db uid
    ∧ (commitsOf
        (process_job_in_background true db uid clean rankLLM tailor).trace).dropLast.countP
        touchesCredits = 0 := by
  refine ⟨?_, ?_, (run_facts true db uid clean rankLLM tailor).2.2⟩
  · intro hc
    simp [process_job_in_background, hget, hc]
  · by_cases hc : c0 ≤ 0
    · simp only [process_job_in_background, hget]
      rw [if_pos ⟨trivial, hc⟩]
      simpa [nonnegCredits, hget] using h0
    · rcases clean with cj | _ | ty
      · rcases rankLLM with rr | _ | _ <;>
          rcases tailor with (_ | (_ | ⟨s, rest⟩)) | _ | ty2 <;>
          simp [process_job_in_background, afterCreate, tailorStep, rank_insert_reduce,
            applyTx, hget, hc, getCredits_insertJob, getCredits_setRanking,
            getCredits_setSuggestions, getCredits_addCredits, nonnegCredits] <;>
          omega
      · simp [process_job_in_background, hget, hc, nonnegCredits]
        omega
      · simp [process_job_in_background, hget, hc, nonnegCredits]
        omega

/-- Witness for C1 (amended) on the funded one-user database. -/
theorem credits_nonneg_with_enforcement_witness :
    ((5 : Int) ≤ 0 → (process_job_in_background true userDb 1 (.ok cleanedA) (.ok rankA)
        (.returns (some ["sug"]))).db = userDb)
    ∧ nonnegCredits (process_job_in_background true userDb 1 (.ok cleanedA) (.ok rankA)
        (.returns (some ["sug"]))).db 1
    ∧ (commitsOf (process_job_in_background true userDb 1 (.ok cleanedA) (.ok rankA)
        (.returns (some ["sug"]))).trace).dropLast.countP touchesCredits = 0 :=
  credits_nonneg_with_enforcement userDb 1 5 (.ok cleanedA) (.ok rankA)
    (.returns (some ["sug"])) rfl (by decide)

/-- C3: every run that reaches the tailoring step and gets an in-band
outcome (suggestions or failure, src/main.py lines 499-553) commits exactly
one transaction that touches a credits balance; that transaction is the
final commit of the run, it deducts exactly one credit from the owner, and
when tailoring succeeded it also persists the suggestions (the deduction
rides the same transaction as the final persistence step); the final
balance ends exactly one lower. -/
theorem single_deduction_at_final_commit (billing : Bool) (db : DB) (uid : Nat) (c0 : Int)
    (cj : CleanedJobDescription) (rankLLM : RankLLM) (v : Option (List String))
    (hget : getCredits db uid = some c0) (hpre : ¬(billing = true ∧ c0 ≤ 0)) :
    (commitsOf (process_job_in_background billing db uid (.ok cj) rankLLM
        (.returns v)).trace).countP touchesCredits = 1
    ∧ finalCommitHasDeduction uid (process_job_in_background billing db uid (.ok cj) rankLLM
        (.returns v)).trace = true
    ∧ suggClauseOK db.nextJobId v (process_job_in_background billing db uid (.ok cj) rankLLM
        (.returns v)).trace = true
    ∧ getCredits (process_job_in_background billing db uid (.ok cj) rankLLM
        (.returns v)).db uid = some (c0 - 1) := by
  rcases rankLLM with rr | _ | _ <;>
    rcases v with _ | (_ | ⟨s, rest⟩) <;>
    simp [process_job_in_background, afterCreate, tailorStep, rank_insert_reduce, applyTx,
      hget, hpre, getCredits_insertJob, getCredits_setRanking, getCredits_setSuggestions,
      getCredits_addCredits, commitsOf, touchesCredits, isCreditWrite,
      finalCommitHasDeduction, suggClauseOK, lastOf, beq_iff_eq] <;>
    omega

/-- Witness for C3 on the funded one-user database with successful
tailoring. -/
theorem single_deduction_at_final_commit_witness :
    (commitsOf (process_job_in_background true userDb 1 (.ok cleanedA) (.ok rankA)
        (.returns (some ["sug"]))).trace).countP touchesCredits = 1
    ∧ finalCommitHasDeduction 1 (process_job_in_background true userDb 1 (.ok cleanedA)
        (.ok rankA) (.returns (some ["sug"]))).trace = true
    ∧ suggClauseOK userDb.nextJobId (some ["sug"])
        (process_job_in_background true userDb 1 (.ok cleanedA) (.ok rankA)
          (.returns (some ["sug"]))).trace = true
    ∧ getCredits (process_job_in_background true userDb 1 (.ok cleanedA) (.ok rankA)
        (.returns (some ["sug"]))).db 1 = some (5 - 1) :=
  single_deduction_at_final_commit true userDb 1 5 cleanedA (.ok rankA) (some ["sug"])
    rfl (by decide)

/-- C8: when the ranking call fails but cleaning and tailoring succeed, the
run is not aborted: the hub receives job_created, then a job_error with the
ranking_failed reason alongside normal progress, then job_tailored; the job
row ends up persisted with the suggestions and with no ranking score
(src/main.py lines 469-507, src/logic.py lines 97-154). -/
theorem ranking_degradation (billing : Bool) (db : DB) (uid : Nat) (c0 : Int)
    (cj : CleanedJobDescription) (s : String) (rest : List String)
    (hget : getCredits db uid = some c0) (hpre : ¬(billing = true ∧ c0 ≤ 0))
    (hfresh : ∀ j ∈ db.jobs, j.id ≠ db.nextJobId) :
    sends (process_job_in_background billing db uid (.ok cj) .genericError
        (.returns (some (s :: rest)))).trace
      = [.jobCreated db.nextJobId cj.title cj.company cj.cleanedMarkdown uid,
         .jobError (some db.nextJobId) .rankingFailed,
         .jobTailored db.nextJobId (s :: rest)]
    ∧ (process_job_in_background billing db uid (.ok cj) .genericError
        (.returns (some (s :: rest)))).db.jobs
      = db.jobs ++ [⟨db.nextJobId, cj.title, cj.company, cj.cleanedMarkdown, none, none,
          some (s :: rest), uid⟩]
    ∧ (process_job_in_background billing db uid (.ok cj) .genericError
        (.returns (some (s :: rest)))).raised = false := by
  simp only [process_job_in_background, afterCreate, tailorStep, applyTx, hget, hpre,
    rank_insert_reduce, getCredits_insertJob, List.foldl_cons, List.foldl_nil,
    if_neg hpre]
  simp [sends, applyWrite, map_setSuggestions_fresh db.jobs db.nextJobId (s :: rest) hfresh]

/-- Witness for C8 on the funded one-user database. -/
theorem ranking_degradation_witness :
    sends (process_job_in_background true userDb 1 (.ok cleanedA) .genericError
        (.returns (some ["sug"]))).trace
      = [.jobCreated userDb.nextJobId cleanedA.title cleanedA.company cleanedA.cleanedMarkdown 1,
         .jobError (some userDb.nextJobId) .rankingFailed,
         .jobTailored userDb.nextJobId ["sug"]]
    ∧ (process_job_in_background true userDb 1 (.ok cleanedA) .genericError
        (.returns (some ["sug"]))).db.jobs
      = userDb.jobs ++ [⟨userDb.nextJobId, cleanedA.title, cleanedA.company,
          cleanedA.cleanedMarkdown, none, none, some ["sug"], 1⟩]
    ∧ (process_job_in_background true userDb 1 (.ok cleanedA) .genericError
        (.returns (some ["sug"]))).raised = false :=
  ranking_degradation true userDb 1 5 cleanedA "sug" [] rfl (by decide) (by decide)

/-- C5: for a non-blank submission whose pipeline does not raise, the 202
acknowledgment of create_job_from_markdown is emitted exactly once and is
the final action of the request, after every pipeline action - because the
endpoint awaits process_job_in_background (src/main.py line 636) instead of
scheduling it, the client is acknowledged only once the whole run has
finished, contradicting the hand-off-without-waiting design. -/
theorem ack_only_after_run_completes (billing : Bool) (db : DB) (uid : Nat)
    (markdown : String) (clean : CleanOutcome) (rankLLM : RankLLM) (tailor : TailorOutcome)
    (hmd : ¬ pyStrip markdown = "")
    (hok : (process_job_in_background billing db uid clean rankLLM tailor).raised = false) :
    (create_job_from_markdown billing db uid markdown clean rankLLM tailor).trace.countP
        isAck = 1
    ∧ (create_job_from_markdown billing db uid markdown clean rankLLM tailor).trace.getLast?
        = some (.respond 202) := by
  have hnoack : (process_job_in_background billing db uid clean rankLLM tailor).trace.countP
      isAck = 0 := by
    rw [List.countP_eq_zero]
    intro a ha
    have hp := List.all_eq_true.mp (run_facts billing db uid clean rankLLM tailor).1 a ha
    cases a <;> simp_all [isPipelineAction, isAck]
  have hshape : create_job_from_markdown billing db uid markdown clean rankLLM tailor
      = ⟨.incrementProcessing ::
          ((process_job_in_background billing db uid clean rankLLM tailor).trace
            ++ [.respond 202]),
         (process_job_in_background billing db uid clean rankLLM tailor).db, false⟩ := by
    simp [create_job_from_markdown, hmd, hok]
  rw [hshape]
  constructor
  · simp [List.countP_cons, List.countP_append, isAck, hnoack]
  · rw [show Action.incrementProcessing ::
          ((process_job_in_background billing db uid clean rankLLM tailor).trace
            ++ [Action.respond 202])
        = (Action.incrementProcessing ::
            (process_job_in_background billing db uid clean rankLLM tailor).trace)
            ++ [Action.respond 202] from rfl]
    exact List.getLast?_concat _

/-- Witness for C5: a concrete non-blank submission on the funded one-user
database. -/
theorem ack_only_after_run_completes_witness :
    (create_job_from_markdown true userDb 1 "posting text" (.ok cleanedA) (.ok rankA)
        (.returns (some ["sug"]))).trace.countP isAck = 1
    ∧ (create_job_from_markdown true userDb 1 "posting text" (.ok cleanedA) (.ok rankA)
        (.returns (some ["sug"]))).trace.getLast? = some (.respond 202) :=
  ack_only_after_run_completes true userDb 1 "posting text" (.ok cleanedA) (.ok rankA)
    (.returns (some ["sug"])) (by decide) (by decide)

/-- C7 counterexample: two different argument lists can collide on one
fingerprint because the serializer at src/logic.py line 34 joins str()-ed
arguments with an unescaped bar: after caching a call on arguments a, b, a
call on the single argument a|b is served from the cache, so the underlying
function is invoked only once although the arguments differ. -/
theorem cache_fingerprint_collision :
    (["a", "b"] : List String) ≠ ["a|b"]
    ∧ (cache_llm_response ([] : List (String × String)) "f" ["a", "b"] (.ok "r")).invoked
        = true
    ∧ (cache_llm_response (cache_llm_response ([] : List (String × String)) "f" ["a", "b"]
        (.ok "r")).cache "f" ["a|b"] (.ok "other")).invoked = false
    ∧ (cache_llm_response (cache_llm_response ([] : List (String × String)) "f" ["a", "b"]
        (.ok "r")).cache "f" ["a|b"] (.ok "other")).value = some "r" := by
  refine ⟨by decide, by decide, by decide, by decide⟩

/-- C7 (amended): after a successful first call, a second call with the same
arguments does not invoke the underlying function and returns the stored
result; a call whose fingerprint differs from everything cached invokes it
again; and a failed call (a None return or a raised error) stores nothing -
where the fingerprint is the bar-joined serialization of src/logic.py lines
32-35, under which distinct argument lists can coincide. -/
theorem cache_idempotence_amended (α : Type) (cache0 : List (String × α)) (fname : String)
    (args1 args2 : List String) (v : α) (o2 : CallOut α)
    (h1 : cache0.find? (fun p => p.fst == cacheKey fname args1) = none)
    (h2 : cache0.find? (fun p => p.fst == cacheKey fname args2) = none)
    (hne : ¬ cacheKey fname args1 = cacheKey fname args2) :
    ((cache_llm_response cache0 fname args1 (.ok v)).invoked = true
      ∧ (cache_llm_response (cache_llm_response cache0 fname args1 (.ok v)).cache
          fname args1 o2).invoked = false
      ∧ (cache_llm_response (cache_llm_response cache0 fname args1 (.ok v)).cache
          fname args1 o2).value = some v)
    ∧ (cache_llm_response (cache_llm_response cache0 fname args1 (.ok v)).cache
        fname args2 o2).invoked = true
    ∧ (cache_llm_response cache0 fname args1 .returnsNone).cache = cache0
    ∧ (cache_llm_response cache0 fname args1 .raisesError).cache = cache0 := by
  rcases o2 <;>
    simp [cache_llm_response, h1, h2, List.find?_cons, beq_iff_eq, hne]

/-- Witness for C7 (amended) on concrete string calls. -/
theorem cache_idempotence_amended_witness :
    ((cache_llm_response ([] : List (String × String)) "f" ["a"] (.ok "r")).invoked = true
      ∧ (cache_llm_response (cache_llm_response ([] : List (String × String)) "f" ["a"]
          (.ok "r")).cache "f" ["a"] (.ok "q")).invoked = false
      ∧ (cache_llm_response (cache_llm_response ([] : List (String × String)) "f" ["a"]
          (.ok "r")).cache "f" ["a"] (.ok "q")).value = some "r")
    ∧ (cache_llm_response (cache_llm_response ([] : List (String × String)) "f" ["a"]
        (.ok "r")).cache "f" ["b"] (.ok "q")).invoked = true
    ∧ (cache_llm_response ([] : List (String × String)) "f" ["a"] .returnsNone).cache = []
    ∧ (cache_llm_response ([] : List (String × String)) "f" ["a"] .raisesError).cache = [] :=
  cache_idempotence_amended String [] "f" ["a"] ["b"] "r" (.ok "q") rfl rfl (by decide)

end GreatFit
